import Mathlib

/-!
Shallow embedding of the storage/aggregation layer of the school-administration
backend (`DatabaseStorage` in the repository's storage module, tables from the
schema module).

Modelling conventions:
* Database columns with integer values are `Int` (JS numbers holding integers);
  serial primary keys are `Nat` counters held in the store state.
* Nullable counter columns (`attendanceSessionsPossible`, `attendanceSessionsPresent`,
  `behaviourPoints`) are modelled non-null, initialised with their schema defaults
  (188 / 188 / 0) by `createStudent`; the source's `|| 0` null-guards are the
  identity on integer values.
* Write timestamps (`recordedAt`, behaviour `date`) are not used by any of the
  operations under study and are omitted from the record types.
* SQL tables are lists in insertion order (append-only at the tail), matching
  the append-only store; unordered `SELECT`s read that order, which is what the
  source relies on when it takes `todayAttendance[todayAttendance.length - 1]`.
* `ORDER BY id DESC` is an explicit insertion sort `sortDescById`.
* JS `Math.round` is `mathRound q = ⌊q + 1/2⌋` on rationals.
* The SQL pattern `lower(a || ' ' || b) LIKE '%' + q.toLowerCase() + '%'` with a
  literal `q` is substring containment on the lowercased strings (`strIncludes`).
-/

namespace SchoolStore

/-- Row of the `students` table. -/
structure Student where
  id : Nat
  firstName : String
  lastName : String
  dateOfBirth : String
  yearGroup : Int
  tutorGroup : String
  admissionDate : String
  attendanceSessionsPossible : Int
  attendanceSessionsPresent : Int
  behaviourPoints : Int
deriving Repr, DecidableEq

/-- Row of the `attendance` table (write timestamp omitted). -/
structure AttendanceRec where
  id : Nat
  studentId : Nat
  date : String
  session : String
  status : String
deriving Repr, DecidableEq

/-- Row of the `behaviour` table (write timestamp omitted). -/
structure BehaviourRec where
  id : Nat
  studentId : Nat
  btype : String
  category : String
  points : Int
  notes : Option String
deriving Repr, DecidableEq

/-- Row of the `detentions` table. -/
structure DetentionRec where
  id : Nat
  studentId : Nat
  dtype : String
  date : String
  time : String
  location : String
  status : String
  reason : Option String
deriving Repr, DecidableEq

/-- The durable store: one list per table plus the serial-key counters. -/
structure StoreState where
  students : List Student
  attendance : List AttendanceRec
  behaviour : List BehaviourRec
  detentions : List DetentionRec
  nextStudentId : Nat
  nextAttendanceId : Nat
  nextBehaviourId : Nat
  nextDetentionId : Nat
deriving Repr, DecidableEq

/-- The empty store; serial keys start at 1. -/
def emptyStore : StoreState :=
  { students := [], attendance := [], behaviour := [], detentions := []
    nextStudentId := 1, nextAttendanceId := 1, nextBehaviourId := 1, nextDetentionId := 1 }

/-- `InsertStudent`: the insert schema omits `id` and the three derived counters. -/
structure InsertStudent where
  firstName : String
  lastName : String
  dateOfBirth : String
  yearGroup : Int
  tutorGroup : String
  admissionDate : String
deriving Repr, DecidableEq

/-- `InsertAttendance`: the insert schema omits `id` and `recordedAt`. -/
structure InsertAttendance where
  studentId : Nat
  date : String
  session : String
  status : String
deriving Repr, DecidableEq

/-- `InsertBehaviour`: the insert schema omits `id` and `date`. -/
structure InsertBehaviour where
  studentId : Nat
  btype : String
  category : String
  points : Int
  notes : Option String
deriving Repr, DecidableEq

/-- `InsertDetention`: the insert schema omits `id`. -/
structure InsertDetention where
  studentId : Nat
  dtype : String
  date : String
  time : String
  location : String
  status : String
  reason : Option String
deriving Repr, DecidableEq

/-- `db.update(students).set(...).where(eq(students.id, sid))`: apply `g` to every
row whose `id` is `sid` (the primary key makes it at most one in reachable states). -/
def dbUpdateStudentsSet (sid : Nat) (g : Student → Student) (l : List Student) : List Student :=
  l.map fun t => if t.id == sid then g t else t

/-- `getStudent(id)`: first row with the given id. -/
def getStudent (s : StoreState) (id : Nat) : Option Student :=
  s.students.find? fun t => t.id == id

/-- Insert `st` into a list that is sorted by descending `id`. -/
def insertDescById (st : Student) : List Student → List Student
  | [] => [st]
  | t :: ts => if t.id ≤ st.id then st :: t :: ts else t :: insertDescById st ts

/-- `ORDER BY students.id DESC`. -/
def sortDescById : List Student → List Student
  | [] => []
  | t :: ts => insertDescById t (sortDescById ts)

/-- `getStudents()`: all students, most recent (largest id) first. -/
def getStudents (s : StoreState) : List Student :=
  sortDescById s.students

/-- `createStudent(insertStudent)`: insert with the schema defaults
`attendanceSessionsPossible = 188`, `attendanceSessionsPresent = 188`,
`behaviourPoints = 0`. -/
def createStudent (s : StoreState) (ins : InsertStudent) : Student × StoreState :=
  let st : Student :=
    { id := s.nextStudentId, firstName := ins.firstName, lastName := ins.lastName
      dateOfBirth := ins.dateOfBirth, yearGroup := ins.yearGroup
      tutorGroup := ins.tutorGroup, admissionDate := ins.admissionDate
      attendanceSessionsPossible := 188, attendanceSessionsPresent := 188
      behaviourPoints := 0 }
  (st, { s with students := s.students ++ [st], nextStudentId := s.nextStudentId + 1 })

/-- The `presentInc` computed by `recordAttendance`: `-1` unless the status is
`PRESENT` or `LATE`. -/
def attendanceInc (status : String) : Int :=
  if status ≠ "PRESENT" ∧ status ≠ "LATE" then -1 else 0

/-- `recordAttendance(record)`: insert the attendance row, then, if the student
exists, set `attendanceSessionsPresent := max 0 (present + presentInc)`.
There is no existence check before the insert; a missing student only skips
the counter update. -/
def recordAttendance (s : StoreState) (r : InsertAttendance) : AttendanceRec × StoreState :=
  let att : AttendanceRec :=
    { id := s.nextAttendanceId, studentId := r.studentId
      date := r.date, session := r.session, status := r.status }
  let s1 : StoreState :=
    { s with attendance := s.attendance ++ [att], nextAttendanceId := s.nextAttendanceId + 1 }
  match getStudent s1 r.studentId with
  | none => (att, s1)
  | some student =>
    let newPresent := max 0 (student.attendanceSessionsPresent + attendanceInc r.status)
    (att, { s1 with students := (dbUpdateStudentsSet r.studentId
      (fun t => { t with attendanceSessionsPresent := newPresent }) s1.students) })

/-- The absence guard of `createBehaviour`: the last (most recently inserted)
attendance row for the student dated `today`, when it exists, has status
`ABSENT_UNAUTH` or `ABSENT_AUTH` (the literals of the source, which do not
match the schema comment's vocabulary). -/
def absentGuard (today : String) (s : StoreState) (sid : Nat) : Bool :=
  match (s.attendance.filter fun a => a.studentId == sid && a.date == today).getLast? with
  | some lastMark => lastMark.status == "ABSENT_UNAUTH" || lastMark.status == "ABSENT_AUTH"
  | none => false

/-- The unguarded tail of `createBehaviour`: insert the behaviour row, then, if
the student exists, add the points to `behaviourPoints`.  The source's
threshold check `if (newPoints <= -10) { }` has an empty body (a comment only),
so it contributes nothing to the state or to the returned value. -/
def behaviourInsert (s : StoreState) (r : InsertBehaviour) : BehaviourRec × StoreState :=
  let beh : BehaviourRec :=
    { id := s.nextBehaviourId, studentId := r.studentId, btype := r.btype
      category := r.category, points := r.points, notes := r.notes }
  let s1 : StoreState :=
    { s with behaviour := s.behaviour ++ [beh], nextBehaviourId := s.nextBehaviourId + 1 }
  match getStudent s1 r.studentId with
  | none => (beh, s1)
  | some student =>
    let newPoints := student.behaviourPoints + r.points
    (beh, { s1 with students := (dbUpdateStudentsSet r.studentId
      (fun t => { t with behaviourPoints := newPoints }) s1.students) })

/-- `createBehaviour(record)`: when the points are positive and the absence
guard fires, throw; otherwise run the insertion and counter update. -/
def createBehaviour (today : String) (s : StoreState) (r : InsertBehaviour) :
    Except String (BehaviourRec × StoreState) :=
  if 0 < r.points ∧ absentGuard today s r.studentId = true then
    Except.error "Cannot award positive points to an absent student"
  else
    Except.ok (behaviourInsert s r)

/-- `deleteStudent(id)`: application-side cascade delete. -/
def deleteStudent (s : StoreState) (id : Nat) : StoreState :=
  { s with attendance := s.attendance.filter fun a => a.studentId ≠ id
           behaviour := s.behaviour.filter fun b => b.studentId ≠ id
           detentions := s.detentions.filter fun d => d.studentId ≠ id
           students := s.students.filter fun t => t.id ≠ id }

/-- `createDetention(record)`. -/
def createDetention (s : StoreState) (r : InsertDetention) : DetentionRec × StoreState :=
  let det : DetentionRec :=
    { id := s.nextDetentionId, studentId := r.studentId, dtype := r.dtype
      date := r.date, time := r.time, location := r.location
      status := r.status, reason := r.reason }
  (det, { s with detentions := s.detentions ++ [det], nextDetentionId := s.nextDetentionId + 1 })

/-- A partial detention update (`Partial<InsertDetention>`). -/
structure DetentionUpdate where
  dtype : Option String
  date : Option String
  time : Option String
  location : Option String
  status : Option String
  reason : Option (Option String)
deriving Repr, DecidableEq

/-- Apply a partial update to one detention row. -/
def applyDetentionUpdate (u : DetentionUpdate) (d : DetentionRec) : DetentionRec :=
  { d with dtype := u.dtype.getD d.dtype, date := u.date.getD d.date
           time := u.time.getD d.time, location := u.location.getD d.location
           status := u.status.getD d.status, reason := u.reason.getD d.reason }

/-- `updateDetention(id, updates)`. -/
def updateDetention (s : StoreState) (id : Nat) (u : DetentionUpdate) :
    Option DetentionRec × StoreState :=
  let detentions := s.detentions.map fun d => if d.id == id then applyDetentionUpdate u d else d
  ((detentions.find? fun d => d.id == id), { s with detentions := detentions })

/-- Truthiness of an optional JS string: defined and non-empty. -/
def truthyStr : Option String → Bool
  | none => false
  | some q => q ≠ ""

/-- Truthiness of an optional JS number: defined and non-zero. -/
def truthyInt : Option Int → Bool
  | none => false
  | some n => n ≠ 0

/-- Is `nd` a leading segment of the second list? -/
def prefAux : List Char → List Char → Bool
  | [], _ => true
  | _ :: _, [] => false
  | a :: as, b :: bs => a == b && prefAux as bs

/-- Does the second list contain `nd` as a contiguous segment? -/
def inclAux (nd : List Char) : List Char → Bool
  | [] => prefAux nd []
  | c :: rest => prefAux nd (c :: rest) || inclAux nd rest

/-- Substring containment on strings. -/
def strIncludes (hay pat : String) : Bool :=
  inclAux pat.toList hay.toList

/-- The query condition of `searchStudents`:
`lower(firstName || ' ' || lastName) LIKE '%' + query.toLowerCase() + '%'`. -/
def nameMatchesQuery (st : Student) (q : String) : Bool :=
  strIncludes (st.firstName ++ " " ++ st.lastName).toLower q.toLower

/-- `searchStudents(query?, yearGroup?, tutorGroup?)`: each truthy argument
pushes one condition; with no conditions the full `getStudents()` roster is
returned, otherwise the rows satisfying the conjunction, ordered by
descending id. -/
def searchStudents (s : StoreState) (query : Option String) (yearGroup : Option Int)
    (tutorGroup : Option String) : List Student :=
  let condQ := truthyStr query
  let condY := truthyInt yearGroup
  let condT := truthyStr tutorGroup
  if condQ = false ∧ condY = false ∧ condT = false then
    getStudents s
  else
    sortDescById (s.students.filter fun st =>
      (!condQ || nameMatchesQuery st (query.getD "")) &&
      (!condY || st.yearGroup == yearGroup.getD 0) &&
      (!condT || st.tutorGroup == tutorGroup.getD ""))

/-- JS `Math.round`: round half toward positive infinity. -/
def mathRound (q : ℚ) : ℤ :=
  Int.floor (q + 1 / 2)

/-- Today's attendance rows with a PRESENT or LATE status. -/
def todayPresentRows (today : String) (s : StoreState) : List AttendanceRec :=
  s.attendance.filter fun a => a.date == today && (a.status == "PRESENT" || a.status == "LATE")

/-- `getAttendancePercentageToday()`: 0 with no students, else
`Math.round((present.length / allStudents.length) * 100)` where `present` is
the list of today's PRESENT/LATE rows (rows, not distinct students).  The
source's trailing `|| 0` is the identity here because the guarded value is a
non-NaN number. -/
def getAttendancePercentageToday (today : String) (s : StoreState) : Int :=
  let n := (getStudents s).length
  if n = 0 then 0
  else mathRound ((((todayPresentRows today s).length : ℚ) / (n : ℚ)) * 100)

/-- Accumulator for `dedupKeepFirst`: elements already emitted are skipped. -/
def dedupKeepFirstAux (seen : List String) : List String → List String
  | [] => []
  | x :: xs =>
    if seen.contains x then dedupKeepFirstAux seen xs
    else x :: dedupKeepFirstAux (x :: seen) xs

/-- First-occurrence deduplication, the iteration order of a JS `Set` built by
insertion. -/
def dedupKeepFirst (l : List String) : List String :=
  dedupKeepFirstAux [] l

/-- `getTutorGroupAttendance()`: one entry per distinct tutor group of the
roster, with `Math.round((totalPresent / (188 * size)) * 100)` (0 when the
group would be empty, which cannot happen for a group drawn from the roster). -/
def getTutorGroupAttendance (s : StoreState) : List (String × Int) :=
  let allStudents := getStudents s
  let groups := dedupKeepFirst (allStudents.map fun st => st.tutorGroup)
  groups.map fun g =>
    let groupStudents := allStudents.filter fun st => st.tutorGroup == g
    let totalPossible : Int := (groupStudents.length : Int) * 188
    let totalPresent : Int := (groupStudents.map fun st => st.attendanceSessionsPresent).sum
    (g, if 0 < totalPossible
        then mathRound (((totalPresent : ℚ) / (totalPossible : ℚ)) * 100)
        else 0)

/-- The operations of the storage layer that touch or read the store, for
stating whole-trace invariants. -/
inductive Op where
  | opCreateStudent (ins : InsertStudent)
  | opRecordAttendance (r : InsertAttendance)
  | opCreateBehaviour (today : String) (r : InsertBehaviour)
  | opDeleteStudent (id : Nat)
  | opCreateDetention (r : InsertDetention)
  | opUpdateDetention (id : Nat) (u : DetentionUpdate)
  | opSearchStudents (q : Option String) (y : Option Int) (t : Option String)
deriving Repr, DecidableEq

/-- State transition of one operation; a thrown `createBehaviour` leaves the
store unchanged, and a search reads without writing. -/
def applyOp (s : StoreState) : Op → StoreState
  | .opCreateStudent ins => (createStudent s ins).2
  | .opRecordAttendance r => (recordAttendance s r).2
  | .opCreateBehaviour today r =>
    match createBehaviour today s r with
    | .ok (_, s') => s'
    | .error _ => s
  | .opDeleteStudent id => deleteStudent s id
  | .opCreateDetention r => (createDetention s r).2
  | .opUpdateDetention id u => (updateDetention s id u).2
  | .opSearchStudents _ _ _ => s

/-- Run a sequence of operations. -/
def applyOps (s : StoreState) : List Op → StoreState
  | [] => s
  | op :: ops => applyOps (applyOp s op) ops

/-- Run a sequence of `createBehaviour` calls, stopping at the first rejection. -/
def runBehaviours (today : String) (s : StoreState) : List InsertBehaviour → Except String StoreState
  | [] => Except.ok s
  | r :: rs =>
    match createBehaviour today s r with
    | .error e => Except.error e
    | .ok (_, s') => runBehaviours today s' rs

/-- Per-student counter invariant of the spec:
`0 ≤ attendanceSessionsPresent ≤ attendanceSessionsPossible`. -/
abbrev StudentWF (st : Student) : Prop :=
  0 ≤ st.attendanceSessionsPresent ∧
  st.attendanceSessionsPresent ≤ st.attendanceSessionsPossible

/-- Store invariant used for the whole-trace induction: counters in range, ids
below the serial counter, ids pairwise distinct (the serial primary key). -/
abbrev StateWF (s : StoreState) : Prop :=
  (∀ st ∈ s.students, StudentWF st) ∧
  (∀ st ∈ s.students, st.id < s.nextStudentId) ∧
  (s.students.map fun t => t.id).Nodup

/-- Modelled from the claim wording of C9: `searchStudents` combines the
supplied filters (any `some` value) with logical AND. -/
def specSearchStudents (s : StoreState) (query : Option String) (yearGroup : Option Int)
    (tutorGroup : Option String) : List Student :=
  sortDescById (s.students.filter fun st =>
    (match query with | none => true | some qs => nameMatchesQuery st qs) &&
    (match yearGroup with | none => true | some yv => st.yearGroup == yv) &&
    (match tutorGroup with | none => true | some tv => st.tutorGroup == tv))

/-- Modelled from the amended wording of C9: a supplied filter whose value is
falsy (empty string, zero) is ignored; the remaining filters combine with AND. -/
def specSearchStudentsFalsyIgnored (s : StoreState) (query : Option String) (yearGroup : Option Int)
    (tutorGroup : Option String) : List Student :=
  sortDescById (s.students.filter fun st =>
    (!truthyStr query || nameMatchesQuery st (query.getD "")) &&
    (!truthyInt yearGroup || st.yearGroup == yearGroup.getD 0) &&
    (!truthyStr tutorGroup || st.tutorGroup == tutorGroup.getD ""))

/-- Modelled from the claim wording of C6: the percentage counts DISTINCT
students with a PRESENT/LATE mark today, not attendance rows. -/
def specAttendancePctDistinct (today : String) (s : StoreState) : Int :=
  let n := s.students.length
  if n = 0 then 0
  else mathRound (100 * (((s.students.filter fun st =>
    s.attendance.any fun a => a.studentId == st.id && a.date == today &&
      (a.status == "PRESENT" || a.status == "LATE")).length : ℚ)) / (n : ℚ))

/-- Concrete fixture: insert request for student Alice of tutor group 7A. -/
def insAlice : InsertStudent :=
  { firstName := "Alice", lastName := "Smith", dateOfBirth := "2012-01-01"
    yearGroup := 7, tutorGroup := "7A", admissionDate := "2023-09-01" }

/-- Concrete fixture: insert request for student Bob of tutor group 7A. -/
def insBob : InsertStudent :=
  { firstName := "Bob", lastName := "Jones", dateOfBirth := "2012-02-02"
    yearGroup := 7, tutorGroup := "7A", admissionDate := "2023-09-01" }

/-- The student row produced for Alice (id 1, counters at their defaults). -/
def stAlice : Student := (createStudent emptyStore insAlice).1

/-- Store holding only Alice. -/
def oneStudentStore : StoreState := (createStudent emptyStore insAlice).2

/-- Store holding Alice (id 1) and Bob (id 2), both in tutor group 7A. -/
def twoStudentStore : StoreState := (createStudent oneStudentStore insBob).2

/-- Behaviour insert: NEGATIVE DISRUPTION worth -10 points for student 1. -/
def negTenIns : InsertBehaviour :=
  { studentId := 1, btype := "NEGATIVE", category := "DISRUPTION", points := -10, notes := none }

/-- Store where Alice has two PRESENT marks (AM and PM) on the same day. -/
def presentTwiceStore : StoreState :=
  (recordAttendance (recordAttendance oneStudentStore
    { studentId := 1, date := "2025-01-15", session := "AM", status := "PRESENT" }).2
    { studentId := 1, date := "2025-01-15", session := "PM", status := "PRESENT" }).2

/-- Store where Alice is marked ABSENT_AUTH today. -/
def absentAliceStore : StoreState :=
  (recordAttendance oneStudentStore
    { studentId := 1, date := "2025-01-15", session := "AM", status := "ABSENT_AUTH" }).2

/-- Behaviour insert: POSITIVE award worth 5 points for student 1. -/
def posFiveIns : InsertBehaviour :=
  { studentId := 1, btype := "POSITIVE", category := "ACHIEVEMENT", points := 5, notes := none }

/-- Behaviour insert: POSITIVE award worth 2 points for student 1. -/
def plusTwoIns : InsertBehaviour :=
  { studentId := 1, btype := "POSITIVE", category := "ACHIEVEMENT", points := 2, notes := none }

/-- Attendance insert: student 1 marked ABSENT. -/
def absentAMIns : InsertAttendance :=
  { studentId := 1, date := "2025-01-15", session := "AM", status := "ABSENT" }

/-- State after inserting the -10 then the +2 behaviour for Alice. -/
def runC5a : StoreState :=
  (behaviourInsert (behaviourInsert oneStudentStore negTenIns).2 plusTwoIns).2

/-- State after inserting the +2 then the -10 behaviour for Alice. -/
def runC5b : StoreState :=
  (behaviourInsert (behaviourInsert oneStudentStore plusTwoIns).2 negTenIns).2


theorem dbUpdateStudentsSet_find? (sid : Nat) (g : Student → Student)
    (hg : ∀ t, (g t).id = t.id) {l : List Student} {st : Student}
    (h : l.find? (fun t => t.id == sid) = some st) :
    (dbUpdateStudentsSet sid g l).find? (fun t => t.id == sid) = some (g st) := by
  induction l with
  | nil => simp at h
  | cons a l ih =>
    rw [dbUpdateStudentsSet, List.map_cons]
    by_cases ha : a.id = sid
    · rw [@List.find?_cons_of_pos _ (fun t => t.id == sid) a l (by simp [ha])] at h
      cases h
      rw [if_pos (show (st.id == sid) = true by simp [ha])]
      rw [@List.find?_cons_of_pos _ (fun t => t.id == sid) (g st) _ (by simp [hg, ha])]
    · rw [@List.find?_cons_of_neg _ (fun t => t.id == sid) a l (by simp [ha])] at h
      rw [if_neg (show ¬ (a.id == sid) = true by simp [ha])]
      rw [@List.find?_cons_of_neg _ (fun t => t.id == sid) a _ (by simp [ha])]
      exact ih h

theorem getStudent_recordAttendance_snd (s : StoreState) (r : InsertAttendance)
    (st : Student) (hfind : getStudent s r.studentId = some st) :
    getStudent (recordAttendance s r).2 r.studentId =
      some { st with attendanceSessionsPresent := max 0 (st.attendanceSessionsPresent + attendanceInc r.status) } := by
  rw [recordAttendance]
  have h1 : getStudent { s with
      attendance := s.attendance ++ [{ id := s.nextAttendanceId, studentId := r.studentId, date := r.date, session := r.session, status := r.status }],
      nextAttendanceId := s.nextAttendanceId + 1 } r.studentId = some st := hfind
  simp only [h1]
  exact dbUpdateStudentsSet_find? r.studentId
    (fun t => { t with attendanceSessionsPresent := max 0 (st.attendanceSessionsPresent + attendanceInc r.status) })
    (fun t => rfl) h1

theorem getStudent_behaviourInsert (s : StoreState) (r : InsertBehaviour)
    (st : Student) (hfind : getStudent s r.studentId = some st) :
    getStudent (behaviourInsert s r).2 r.studentId =
      some { st with behaviourPoints := st.behaviourPoints + r.points } := by
  rw [behaviourInsert]
  have h1 : getStudent { s with
      behaviour := s.behaviour ++ [{ id := s.nextBehaviourId, studentId := r.studentId, btype := r.btype, category := r.category, points := r.points, notes := r.notes }],
      nextBehaviourId := s.nextBehaviourId + 1 } r.studentId = some st := hfind
  simp only [h1]
  exact dbUpdateStudentsSet_find? r.studentId
    (fun t => { t with behaviourPoints := st.behaviourPoints + r.points })
    (fun t => rfl) h1

theorem runBehaviours_points (today : String) (sid : Nat) :
    ∀ (rs : List InsertBehaviour), (∀ r ∈ rs, r.studentId = sid) →
    ∀ (s : StoreState) (st : Student), getStudent s sid = some st →
    ∀ (s' : StoreState), runBehaviours today s rs = Except.ok s' →
    getStudent s' sid = some { st with behaviourPoints := st.behaviourPoints + (rs.map fun r => r.points).sum } := by
  intro rs
  induction rs with
  | nil =>
    intro _ s st hfind s' hrun
    rw [runBehaviours] at hrun
    cases hrun
    simpa using hfind
  | cons r rs ih =>
    intro hall s st hfind s' hrun
    have hr : r.studentId = sid := hall r (by simp)
    by_cases hc : (0 < r.points ∧ absentGuard today s r.studentId = true)
    · rw [runBehaviours, createBehaviour, if_pos hc] at hrun
      simp at hrun
    · rw [runBehaviours, createBehaviour, if_neg hc] at hrun
      have hnext : getStudent (behaviourInsert s r).2 sid =
          some { st with behaviourPoints := st.behaviourPoints + r.points } := by
        rw [← hr] at hfind ⊢
        exact getStudent_behaviourInsert s r st hfind
      have := ih (fun x hx => hall x (by simp [hx])) (behaviourInsert s r).2
        { st with behaviourPoints := st.behaviourPoints + r.points } hnext s' hrun
      rw [this]
      simp [add_assoc]

theorem insertDescById_perm (st : Student) (l : List Student) :
    (insertDescById st l).Perm (st :: l) := by
  induction l with
  | nil => exact List.Perm.refl _
  | cons a l ih =>
    rw [insertDescById]
    split
    · exact List.Perm.refl _
    · exact (ih.cons a).trans (List.Perm.swap st a l)

theorem sortDescById_perm (l : List Student) : (sortDescById l).Perm l := by
  induction l with
  | nil => exact List.Perm.refl _
  | cons a l ih => exact (insertDescById_perm a (sortDescById l)).trans (ih.cons a)

theorem mem_dedupKeepFirstAux (g : String) : ∀ (l seen : List String), g ∈ l →
    g ∈ seen ∨ g ∈ dedupKeepFirstAux seen l := by
  intro l
  induction l with
  | nil => intro seen h; cases h
  | cons x xs ih =>
    intro seen hg
    rw [dedupKeepFirstAux]
    rcases List.mem_cons.mp hg with hx | hxs
    · subst hx
      split
      · rename_i hc
        exact Or.inl (List.elem_iff.mp hc)
      · exact Or.inr (List.mem_cons_self _ _)
    · split
      · exact ih seen hxs
      · rcases ih (x :: seen) hxs with hin | hin
        · rcases List.mem_cons.mp hin with h1 | h1
          · subst h1; exact Or.inr (List.mem_cons_self _ _)
          · exact Or.inl h1
        · exact Or.inr (List.mem_cons_of_mem _ hin)

theorem mem_dedupKeepFirst {l : List String} {g : String} (hg : g ∈ l) :
    g ∈ dedupKeepFirst l :=
  (mem_dedupKeepFirstAux g l [] hg).resolve_left (by simp)

theorem attendanceInc_le_zero (status : String) : attendanceInc status ≤ 0 := by
  rw [attendanceInc]; split <;> omega

theorem dbUpdateStudentsSet_map_id (sid : Nat) (g : Student → Student)
    (hg : ∀ t, (g t).id = t.id) (l : List Student) :
    ((dbUpdateStudentsSet sid g l).map fun t => t.id) = l.map fun t => t.id := by
  induction l with
  | nil => rfl
  | cons a l ih =>
    show ((if (a.id == sid) = true then g a else a) :: dbUpdateStudentsSet sid g l).map (fun t => t.id) = _
    rw [List.map_cons, List.map_cons, ih]
    have hhd : (if (a.id == sid) = true then g a else a).id = a.id := by
      split
      · exact hg a
      · rfl
    rw [hhd]

theorem find?_unique_of_nodup_ids {l : List Student} (hnd : (l.map fun t => t.id).Nodup)
    {sid : Nat} {st t : Student} (hfind : l.find? (fun u => u.id == sid) = some st)
    (ht : t ∈ l) (hid : t.id = sid) : t = st := by
  have hst_mem : st ∈ l := List.mem_of_find?_eq_some hfind
  have hst_id : (st.id == sid) = true := @List.find?_some _ (fun u => u.id == sid) st l hfind
  have heq : t.id = st.id := by
    simp only [beq_iff_eq] at hst_id
    rw [hid, hst_id]
  exact List.inj_on_of_nodup_map hnd ht hst_mem heq

theorem StateWF_recordAttendance (s : StoreState) (r : InsertAttendance)
    (h : StateWF s) : StateWF (recordAttendance s r).2 := by
  obtain ⟨hwf, hid, hnd⟩ := h
  rw [recordAttendance]
  cases hfind : getStudent s r.studentId with
  | none =>
    have h1 : getStudent { s with
        attendance := s.attendance ++ [{ id := s.nextAttendanceId, studentId := r.studentId, date := r.date, session := r.session, status := r.status }],
        nextAttendanceId := s.nextAttendanceId + 1 } r.studentId = none := hfind
    simp only [h1]
    exact ⟨hwf, hid, hnd⟩
  | some st =>
    have h1 : getStudent { s with
        attendance := s.attendance ++ [{ id := s.nextAttendanceId, studentId := r.studentId, date := r.date, session := r.session, status := r.status }],
        nextAttendanceId := s.nextAttendanceId + 1 } r.studentId = some st := hfind
    simp only [h1]
    have hfind' : s.students.find? (fun u => u.id == r.studentId) = some st := hfind
    refine ⟨?_, ?_, ?_⟩
    · intro t' ht'
      obtain ⟨t, htmem, rfl⟩ := List.mem_map.mp ht'
      by_cases hc : t.id = r.studentId
      · have hbeq : (t.id == r.studentId) = true := by simp [hc]
        have ht_eq : t = st := find?_unique_of_nodup_ids hnd hfind' htmem hc
        subst ht_eq
        have hwf_t := hwf t htmem
        have hinc := attendanceInc_le_zero r.status
        simp only [hbeq, if_true]
        refine ⟨?_, ?_⟩
        · show (0:Int) ≤ max 0 (t.attendanceSessionsPresent + attendanceInc r.status)
          exact le_max_left _ _
        · show max 0 (t.attendanceSessionsPresent + attendanceInc r.status) ≤ t.attendanceSessionsPossible
          rcases hwf_t with ⟨h0, hle⟩
          rw [max_le_iff]
          constructor <;> omega
      · have hbeq : (t.id == r.studentId) = false := by simp [hc]
        simp only [hbeq, Bool.false_eq_true, if_false]
        exact hwf t htmem
    · intro t' ht'
      obtain ⟨t, htmem, rfl⟩ := List.mem_map.mp ht'
      have hidt : (if (t.id == r.studentId) = true
          then { t with attendanceSessionsPresent := (max 0 (st.attendanceSessionsPresent + attendanceInc r.status)) }
          else t).id = t.id := by
        split <;> rfl
      rw [hidt]
      exact hid t htmem
    · have hmapid : ((dbUpdateStudentsSet r.studentId
          (fun t => { t with attendanceSessionsPresent := (max 0 (st.attendanceSessionsPresent + attendanceInc r.status)) })
          s.students).map fun t => t.id) = s.students.map fun t => t.id :=
        dbUpdateStudentsSet_map_id r.studentId
          (fun t => { t with attendanceSessionsPresent := (max 0 (st.attendanceSessionsPresent + attendanceInc r.status)) })
          (fun t => rfl) s.students
      exact hmapid.symm ▸ hnd

theorem StateWF_behaviourInsert (s : StoreState) (r : InsertBehaviour)
    (h : StateWF s) : StateWF (behaviourInsert s r).2 := by
  obtain ⟨hwf, hid, hnd⟩ := h
  rw [behaviourInsert]
  cases hfind : getStudent s r.studentId with
  | none =>
    have h1 : getStudent { s with
        behaviour := s.behaviour ++ [{ id := s.nextBehaviourId, studentId := r.studentId, btype := r.btype, category := r.category, points := r.points, notes := r.notes }],
        nextBehaviourId := s.nextBehaviourId + 1 } r.studentId = none := hfind
    simp only [h1]
    exact ⟨hwf, hid, hnd⟩
  | some st =>
    have h1 : getStudent { s with
        behaviour := s.behaviour ++ [{ id := s.nextBehaviourId, studentId := r.studentId, btype := r.btype, category := r.category, points := r.points, notes := r.notes }],
        nextBehaviourId := s.nextBehaviourId + 1 } r.studentId = some st := hfind
    simp only [h1]
    refine ⟨?_, ?_, ?_⟩
    · intro t' ht'
      obtain ⟨t, htmem, rfl⟩ := List.mem_map.mp ht'
      have hwf_t := hwf t htmem
      split
      · exact hwf_t
      · exact hwf_t
    · intro t' ht'
      obtain ⟨t, htmem, rfl⟩ := List.mem_map.mp ht'
      have hidt : (if (t.id == r.studentId) = true
          then { t with behaviourPoints := st.behaviourPoints + r.points }
          else t).id = t.id := by
        split <;> rfl
      rw [hidt]
      exact hid t htmem
    · have hmapid : ((dbUpdateStudentsSet r.studentId
          (fun t => { t with behaviourPoints := st.behaviourPoints + r.points })
          s.students).map fun t => t.id) = s.students.map fun t => t.id :=
        dbUpdateStudentsSet_map_id r.studentId
          (fun t => { t with behaviourPoints := st.behaviourPoints + r.points })
          (fun t => rfl) s.students
      exact hmapid.symm ▸ hnd

theorem StateWF_createStudent (s : StoreState) (ins : InsertStudent)
    (h : StateWF s) : StateWF (createStudent s ins).2 := by
  obtain ⟨hwf, hid, hnd⟩ := h
  refine ⟨?_, ?_, ?_⟩
  · intro t ht
    rcases List.mem_append.mp ht with h1 | h1
    · exact hwf t h1
    · have := List.mem_singleton.mp h1
      subst this
      exact ⟨by norm_num, by norm_num⟩
  · intro t ht
    rcases List.mem_append.mp ht with h1 | h1
    · exact Nat.lt_succ_of_lt (hid t h1)
    · have := List.mem_singleton.mp h1
      subst this
      exact Nat.lt_succ_self _
  · have hsplit : (createStudent s ins).2.students = s.students ++ [(createStudent s ins).1] := rfl
    rw [hsplit, List.map_append]
    refine List.Nodup.append hnd (List.nodup_singleton _) ?_
    intro a ha hb
    obtain ⟨t, htmem, rfl⟩ := List.mem_map.mp ha
    have hb2 : t.id = s.nextStudentId := by simpa using hb
    have hlt := hid t htmem
    omega

theorem StateWF_deleteStudent (s : StoreState) (id : Nat)
    (h : StateWF s) : StateWF (deleteStudent s id) := by
  obtain ⟨hwf, hid, hnd⟩ := h
  refine ⟨?_, ?_, ?_⟩
  · intro t ht
    exact hwf t (List.mem_of_mem_filter ht)
  · intro t ht
    exact hid t (List.mem_of_mem_filter ht)
  · exact ((List.filter_sublist _).map _).nodup hnd

theorem StateWF_applyOp (s : StoreState) (op : Op) (h : StateWF s) :
    StateWF (applyOp s op) := by
  cases op with
  | opCreateStudent ins => exact StateWF_createStudent s ins h
  | opRecordAttendance r => exact StateWF_recordAttendance s r h
  | opCreateBehaviour today r =>
    rw [applyOp, createBehaviour]
    by_cases hc : (0 < r.points ∧ absentGuard today s r.studentId = true)
    · rw [if_pos hc]
      exact h
    · rw [if_neg hc]
      exact StateWF_behaviourInsert s r h
  | opDeleteStudent id => exact StateWF_deleteStudent s id h
  | opCreateDetention r => exact h
  | opUpdateDetention id u => exact h
  | opSearchStudents q y t => exact h

theorem StateWF_applyOps (s : StoreState) (ops : List Op) (h : StateWF s) :
    StateWF (applyOps s ops) := by
  induction ops generalizing s with
  | nil => exact h
  | cons op ops ih => exact ih _ (StateWF_applyOp s op h)

/-- Claim C1: a positive-points behaviour insert for a student whose most recent
attendance record dated today has status ABSENT_UNAUTH or ABSENT_AUTH is rejected
with an error and produces no state change. -/
theorem createBehaviour_rejects_absent (today : String) (s : StoreState) (r : InsertBehaviour)
    (hp : 0 < r.points) (a : AttendanceRec)
    (ha : (s.attendance.filter fun x => x.studentId == r.studentId && x.date == today).getLast? = some a)
    (hstat : a.status = "ABSENT_UNAUTH" ∨ a.status = "ABSENT_AUTH") :
    createBehaviour today s r = Except.error "Cannot award positive points to an absent student" ∧
    applyOp s (Op.opCreateBehaviour today r) = s := by
  have hguard : absentGuard today s r.studentId = true := by
    rw [absentGuard, ha]
    rcases hstat with h | h <;> simp [h]
  have herr : createBehaviour today s r = Except.error "Cannot award positive points to an absent student" := by
    rw [createBehaviour, if_pos ⟨hp, hguard⟩]
  refine ⟨herr, ?_⟩
  rw [applyOp]
  simp only [herr]

/-- Claim C1 witness. -/
theorem createBehaviour_rejects_absent_wit :
    createBehaviour "2025-01-15" absentAliceStore posFiveIns =
      Except.error "Cannot award positive points to an absent student" ∧
    applyOp absentAliceStore (Op.opCreateBehaviour "2025-01-15" posFiveIns) = absentAliceStore :=
  createBehaviour_rejects_absent "2025-01-15" absentAliceStore posFiveIns (by decide)
    { id := 1, studentId := 1, date := "2025-01-15", session := "AM", status := "ABSENT_AUTH" }
    (by decide) (by decide)

/-- Claim C2: for an existing student with a non-negative counter, recordAttendance
with status PRESENT or LATE leaves attendanceSessionsPresent unchanged, and any
other status decrements it by exactly 1, floored at 0. -/
theorem recordAttendance_updates_present (s : StoreState) (r : InsertAttendance)
    (st : Student) (hfind : getStudent s r.studentId = some st)
    (h0 : 0 ≤ st.attendanceSessionsPresent) :
    getStudent (recordAttendance s r).2 r.studentId =
      some { st with attendanceSessionsPresent := (if r.status = "PRESENT" ∨ r.status = "LATE"
        then st.attendanceSessionsPresent else max 0 (st.attendanceSessionsPresent - 1)) } := by
  rw [getStudent_recordAttendance_snd s r st hfind]
  have hv : max 0 (st.attendanceSessionsPresent + attendanceInc r.status) =
      (if r.status = "PRESENT" ∨ r.status = "LATE"
       then st.attendanceSessionsPresent else max 0 (st.attendanceSessionsPresent - 1)) := by
    by_cases hs : r.status = "PRESENT" ∨ r.status = "LATE"
    · have hi : attendanceInc r.status = 0 := by
        rw [attendanceInc, if_neg]; simp only [not_and_or, not_not]; tauto
      rw [hi, if_pos hs, add_zero, max_eq_right h0]
    · have hi : attendanceInc r.status = -1 := by
        rw [attendanceInc, if_pos]; constructor <;> (intro hc; exact hs (by simp [hc]))
      rw [hi, if_neg hs]
      congr 1
  rw [hv]

/-- Claim C2 witness. -/
theorem recordAttendance_updates_present_wit :
    getStudent (recordAttendance oneStudentStore absentAMIns).2 absentAMIns.studentId =
      some { stAlice with attendanceSessionsPresent := (if absentAMIns.status = "PRESENT" ∨ absentAMIns.status = "LATE"
        then stAlice.attendanceSessionsPresent else max 0 (stAlice.attendanceSessionsPresent - 1)) } :=
  recordAttendance_updates_present oneStudentStore absentAMIns stAlice (by decide) (by decide)

/-- Claim C3 evaluation: inserting Behaviour(Alice, NEGATIVE, DISRUPTION, -10) brings
behaviourPoints to -10, and the complete observable outcome is the returned row and
the updated store only - the threshold branch of the source is empty, so no flag,
notification or any other signal is raised. -/
theorem createBehaviour_threshold_silent :
    createBehaviour "2025-01-15" oneStudentStore negTenIns =
      Except.ok ({ id := 1, studentId := 1, btype := "NEGATIVE", category := "DISRUPTION", points := -10, notes := none },
        { students := [{ stAlice with behaviourPoints := -10 }]
          attendance := []
          behaviour := [{ id := 1, studentId := 1, btype := "NEGATIVE", category := "DISRUPTION", points := -10, notes := none }]
          detentions := []
          nextStudentId := 2, nextAttendanceId := 1, nextBehaviourId := 2, nextDetentionId := 1 }) ∧
    ((applyOp oneStudentStore (Op.opCreateBehaviour "2025-01-15" negTenIns)).students.map fun t => t.behaviourPoints) = [-10] := by
  constructor
  · rfl
  · decide

/-- Claim C4: starting from any well-formed store (in particular any store of freshly
created students), after any sequence of operations every student satisfies
0 <= attendanceSessionsPresent <= attendanceSessionsPossible. -/
theorem counters_in_range (s : StoreState) (ops : List Op) (h : StateWF s)
    (st : Student) (hmem : st ∈ (applyOps s ops).students) :
    0 ≤ st.attendanceSessionsPresent ∧
    st.attendanceSessionsPresent ≤ st.attendanceSessionsPossible :=
  (StateWF_applyOps s ops h).1 st hmem

/-- Claim C4 witness. -/
theorem counters_in_range_wit :
    0 ≤ ({ stAlice with attendanceSessionsPresent := 187 } : Student).attendanceSessionsPresent ∧
    ({ stAlice with attendanceSessionsPresent := 187 } : Student).attendanceSessionsPresent ≤
      ({ stAlice with attendanceSessionsPresent := 187 } : Student).attendanceSessionsPossible :=
  counters_in_range emptyStore [Op.opCreateStudent insAlice, Op.opRecordAttendance absentAMIns]
    (by decide) { stAlice with attendanceSessionsPresent := 187 } (by decide)

/-- Claim C5: a successful sequence of behaviour inserts for one student changes
behaviourPoints by exactly the sum of the points, and a successful permutation of
the same inserts reaches the same total. -/
theorem behaviourPoints_sum_order_invariant (today : String) (sid : Nat)
    (rs rsP : List InsertBehaviour) (hperm : rsP.Perm rs)
    (hall : ∀ r ∈ rs, r.studentId = sid)
    (s : StoreState) (st : Student) (hfind : getStudent s sid = some st)
    (s1 s2 : StoreState)
    (h1 : runBehaviours today s rs = Except.ok s1)
    (h2 : runBehaviours today s rsP = Except.ok s2) :
    getStudent s1 sid = some { st with behaviourPoints := st.behaviourPoints + (rs.map fun r => r.points).sum } ∧
    getStudent s2 sid = some { st with behaviourPoints := st.behaviourPoints + (rs.map fun r => r.points).sum } := by
  have hallP : ∀ r ∈ rsP, r.studentId = sid := fun r hr => hall r (hperm.mem_iff.mp hr)
  have hsum : (rsP.map fun r => r.points).sum = (rs.map fun r => r.points).sum :=
    (hperm.map fun r => r.points).sum_eq
  constructor
  · exact runBehaviours_points today sid rs hall s st hfind s1 h1
  · rw [runBehaviours_points today sid rsP hallP s st hfind s2 h2, hsum]

/-- Claim C5 witness. -/
theorem behaviourPoints_sum_order_invariant_wit :
    getStudent runC5a 1 = some { stAlice with behaviourPoints := stAlice.behaviourPoints + ([negTenIns, plusTwoIns].map fun r => r.points).sum } ∧
    getStudent runC5b 1 = some { stAlice with behaviourPoints := stAlice.behaviourPoints + ([negTenIns, plusTwoIns].map fun r => r.points).sum } :=
  behaviourPoints_sum_order_invariant "2025-01-15" 1 [negTenIns, plusTwoIns] [plusTwoIns, negTenIns]
    (by decide) (by decide) oneStudentStore stAlice (by decide) runC5a runC5b (by rfl) (by rfl)

/-- Claim C6 counterexample: with one student marked PRESENT in both sessions today,
the code returns 200 while the claim formula (distinct students) yields 100. -/
theorem getAttendancePercentageToday_counts_rows :
    getAttendancePercentageToday "2025-01-15" presentTwiceStore = 200 ∧
    specAttendancePctDistinct "2025-01-15" presentTwiceStore = 100 := by
  constructor
  · rw [getAttendancePercentageToday]
    rw [show (getStudents presentTwiceStore).length = 1 from by decide]
    rw [show (todayPresentRows "2025-01-15" presentTwiceStore).length = 2 from by decide]
    norm_num [mathRound]
  · rw [specAttendancePctDistinct]
    rw [show (presentTwiceStore.students.filter fun st =>
      presentTwiceStore.attendance.any fun a => a.studentId == st.id && a.date == "2025-01-15" &&
        (a.status == "PRESENT" || a.status == "LATE")).length = 1 from by decide]
    rw [show presentTwiceStore.students.length = 1 from by decide]
    norm_num [mathRound]

/-- Claim C6 amended: the percentage is round of 100 times the number of PRESENT or LATE
attendance rows dated today divided by the number of students - counting rows rather
than distinct students; it is 0 with no students and never negative (no divide-by-zero,
no NaN). -/
theorem getAttendancePercentageToday_marks (today : String) (s : StoreState) :
    getAttendancePercentageToday today s =
      (if s.students.length = 0 then 0
       else mathRound (100 * (((todayPresentRows today s).length : ℚ)) / (s.students.length : ℚ))) ∧
    0 ≤ getAttendancePercentageToday today s := by
  have hlen : (getStudents s).length = s.students.length := (sortDescById_perm s.students).length_eq
  have hmain : getAttendancePercentageToday today s =
      (if s.students.length = 0 then 0
       else mathRound (100 * (((todayPresentRows today s).length : ℚ)) / (s.students.length : ℚ))) := by
    rw [getAttendancePercentageToday, hlen]
    split
    · rfl
    · congr 1
      ring
  refine ⟨hmain, ?_⟩
  rw [hmain]
  split
  · exact le_refl 0
  · rw [mathRound]
    refine Int.le_floor.mpr ?_
    push_cast
    positivity

/-- Claim C7: every tutor group of the roster appears in getTutorGroupAttendance with
value round of 100 times the group sum of attendanceSessionsPresent divided by 188
times the group size; the output keys are exactly the distinct tutor groups; and for
two students of group 7A with counters 188 the result is [(7A, 100)]. -/
theorem tutorGroupAttendance_formula :
    (∀ (s : StoreState) (st : Student), st ∈ s.students →
      (st.tutorGroup,
        mathRound (100 * ((((s.students.filter fun t => t.tutorGroup == st.tutorGroup).map fun t => t.attendanceSessionsPresent).sum : ℚ))
          / ((188 : ℚ) * ((s.students.filter fun t => t.tutorGroup == st.tutorGroup).length : ℚ)))) ∈
        getTutorGroupAttendance s) ∧
    (∀ s : StoreState, (getTutorGroupAttendance s).map Prod.fst =
      dedupKeepFirst ((getStudents s).map fun t => t.tutorGroup)) ∧
    getTutorGroupAttendance twoStudentStore = [("7A", 100)] := by
  refine ⟨?_, ?_, ?_⟩
  · intro s st hmem
    have hmem_sorted : st ∈ getStudents s := (sortDescById_perm s.students).mem_iff.mpr hmem
    have hgroups : st.tutorGroup ∈ dedupKeepFirst ((getStudents s).map fun t => t.tutorGroup) :=
      mem_dedupKeepFirst (List.mem_map_of_mem _ hmem_sorted)
    rw [getTutorGroupAttendance]
    refine List.mem_map.mpr ⟨st.tutorGroup, hgroups, ?_⟩
    have hperm : ((getStudents s).filter fun t => t.tutorGroup == st.tutorGroup).Perm
        (s.students.filter fun t => t.tutorGroup == st.tutorGroup) :=
      (sortDescById_perm s.students).filter _
    have hlen : ((getStudents s).filter fun t => t.tutorGroup == st.tutorGroup).length =
        (s.students.filter fun t => t.tutorGroup == st.tutorGroup).length := hperm.length_eq
    have hsum : (((getStudents s).filter fun t => t.tutorGroup == st.tutorGroup).map fun t => t.attendanceSessionsPresent).sum =
        ((s.students.filter fun t => t.tutorGroup == st.tutorGroup).map fun t => t.attendanceSessionsPresent).sum :=
      (hperm.map _).sum_eq
    have hpos : 0 < (s.students.filter fun t => t.tutorGroup == st.tutorGroup).length :=
      List.length_pos.mpr (List.ne_nil_of_mem (List.mem_filter.mpr ⟨hmem, by simp⟩))
    simp only [hlen, hsum]
    have hposI : (0 : Int) < ((s.students.filter fun t => t.tutorGroup == st.tutorGroup).length : Int) * 188 := by
      omega
    rw [if_pos hposI]
    have hne : (((s.students.filter fun t => t.tutorGroup == st.tutorGroup).length : ℚ)) ≠ 0 :=
      Nat.cast_ne_zero.mpr hpos.ne'
    congr 1
    congr 1
    push_cast
    field_simp
    simp only [Function.comp_def]
    ring
  · intro s
    rw [getTutorGroupAttendance]
    simp [Function.comp_def]
  · rw [getTutorGroupAttendance]
    rw [show dedupKeepFirst ((getStudents twoStudentStore).map fun t => t.tutorGroup) = ["7A"] from by decide]
    simp only [List.map_cons, List.map_nil]
    rw [show (getStudents twoStudentStore).filter (fun t => t.tutorGroup == "7A") = twoStudentStore.students.reverse from by decide]
    rw [show twoStudentStore.students.reverse.length = 2 from by decide]
    rw [show (twoStudentStore.students.reverse.map fun t => t.attendanceSessionsPresent).sum = 376 from by decide]
    norm_num [mathRound]

/-- Claim C7 witness. -/
theorem tutorGroupAttendance_formula_wit :
    (stAlice.tutorGroup,
      mathRound (100 * ((((twoStudentStore.students.filter fun t => t.tutorGroup == stAlice.tutorGroup).map fun t => t.attendanceSessionsPresent).sum : ℚ))
        / ((188 : ℚ) * ((twoStudentStore.students.filter fun t => t.tutorGroup == stAlice.tutorGroup).length : ℚ)))) ∈
      getTutorGroupAttendance twoStudentStore :=
  tutorGroupAttendance_formula.1 twoStudentStore stAlice (by decide)

/-- Claim C8 counterexample: with no students at all, recordAttendance for student id 7
still persists the attendance row (and raises no error) - there is no referential
existence check. -/
theorem recordAttendance_missing_student_cex :
    getStudent emptyStore 7 = none ∧
    ((recordAttendance emptyStore { studentId := 7, date := "2025-01-15", session := "AM", status := "PRESENT" }).2.attendance.map fun a => a.studentId) = [7] ∧
    (recordAttendance emptyStore { studentId := 7, date := "2025-01-15", session := "AM", status := "PRESENT" }).2.students = [] := by
  refine ⟨by decide, by decide, by decide⟩

/-- Claim C8 amended: recordAttendance for a nonexistent studentId succeeds, inserts and
returns the attendance row, and leaves every student row unchanged (the counter update
is skipped). -/
theorem recordAttendance_missing_student (s : StoreState) (r : InsertAttendance)
    (h : getStudent s r.studentId = none) :
    recordAttendance s r =
      ({ id := s.nextAttendanceId, studentId := r.studentId, date := r.date, session := r.session, status := r.status },
       { s with attendance := (s.attendance ++ [{ id := s.nextAttendanceId, studentId := r.studentId, date := r.date, session := r.session, status := r.status }]), nextAttendanceId := s.nextAttendanceId + 1 }) := by
  rw [recordAttendance]
  have h1 : getStudent { s with
      attendance := s.attendance ++ [{ id := s.nextAttendanceId, studentId := r.studentId, date := r.date, session := r.session, status := r.status }],
      nextAttendanceId := s.nextAttendanceId + 1 } r.studentId = none := h
  simp only [h1]

/-- Claim C8 witness. -/
theorem recordAttendance_missing_student_wit :
    recordAttendance emptyStore { studentId := 7, date := "2025-01-15", session := "AM", status := "PRESENT" } =
      ({ id := 1, studentId := 7, date := "2025-01-15", session := "AM", status := "PRESENT" },
       { emptyStore with attendance := [{ id := 1, studentId := 7, date := "2025-01-15", session := "AM", status := "PRESENT" }], nextAttendanceId := 2 }) :=
  recordAttendance_missing_student emptyStore
    { studentId := 7, date := "2025-01-15", session := "AM", status := "PRESENT" } (by decide)

/-- Claim C9 counterexample: the filter yearGroup = 0 is falsy in the source, so it is
dropped: the code returns Alice (yearGroup 7) although the claim requires exactly the
students with yearGroup = 0, i.e. none. -/
theorem searchStudents_truthiness_cex :
    searchStudents oneStudentStore none (some 0) none = [stAlice] ∧
    specSearchStudents oneStudentStore none (some 0) none = [] ∧
    stAlice.yearGroup = 7 := by
  refine ⟨by decide, by decide, by decide⟩

/-- Claim C9 amended: searchStudents equals the AND-composition of the supplied filters
in descending-id order, where a supplied filter with a falsy value (empty query string,
yearGroup 0, empty tutorGroup string) is treated as not supplied. -/
theorem searchStudents_falsy_filters (s : StoreState) (query : Option String)
    (yearGroup : Option Int) (tutorGroup : Option String) :
    searchStudents s query yearGroup tutorGroup =
      specSearchStudentsFalsyIgnored s query yearGroup tutorGroup := by
  rw [searchStudents, specSearchStudentsFalsyIgnored]
  split
  · rename_i hc
    obtain ⟨hq, hy, ht⟩ := hc
    rw [getStudents]
    congr 1
    rw [hq, hy, ht]
    simp
  · rfl

/-- Claim C10: recordAttendance for an existing student leaves behaviour and detention
rows unchanged, only appends to the attendance rows, and touches students only via the
attendanceSessionsPresent field of rows with the given id. -/
theorem recordAttendance_frame (s : StoreState) (r : InsertAttendance)
    (st : Student) (hfind : getStudent s r.studentId = some st) :
    (recordAttendance s r).2.behaviour = s.behaviour ∧
    (recordAttendance s r).2.detentions = s.detentions ∧
    (recordAttendance s r).2.attendance = s.attendance ++ [(recordAttendance s r).1] ∧
    (recordAttendance s r).2.students =
      s.students.map (fun t => if t.id == r.studentId
        then { t with attendanceSessionsPresent := (max 0 (st.attendanceSessionsPresent + attendanceInc r.status)) }
        else t) ∧
    (∀ t, t ∈ s.students → t.id ≠ r.studentId → t ∈ (recordAttendance s r).2.students) := by
  rw [recordAttendance]
  have h1 : getStudent { s with
      attendance := s.attendance ++ [{ id := s.nextAttendanceId, studentId := r.studentId, date := r.date, session := r.session, status := r.status }],
      nextAttendanceId := s.nextAttendanceId + 1 } r.studentId = some st := hfind
  simp only [h1]
  refine ⟨trivial, trivial, trivial, rfl, ?_⟩
  intro t ht hne
  have hcond : (t.id == r.studentId) = false := by simp [hne]
  refine List.mem_map.mpr ⟨t, ht, ?_⟩
  simp [hcond]

/-- Claim C10 witness. -/
theorem recordAttendance_frame_wit :
    (recordAttendance oneStudentStore absentAMIns).2.behaviour = oneStudentStore.behaviour ∧
    (recordAttendance oneStudentStore absentAMIns).2.detentions = oneStudentStore.detentions ∧
    (recordAttendance oneStudentStore absentAMIns).2.attendance =
      oneStudentStore.attendance ++ [(recordAttendance oneStudentStore absentAMIns).1] ∧
    (recordAttendance oneStudentStore absentAMIns).2.students =
      oneStudentStore.students.map (fun t => if t.id == absentAMIns.studentId
        then { t with attendanceSessionsPresent := (max 0 (stAlice.attendanceSessionsPresent + attendanceInc absentAMIns.status)) }
        else t) :=
  have h := recordAttendance_frame oneStudentStore absentAMIns stAlice (by decide)
  ⟨h.1, h.2.1, h.2.2.1, h.2.2.2.1⟩

end SchoolStore
